import Mathlib

/-!
Verification development for the influxdb repository fragment:
shared error values and batch normalization (package influxdb) and the
HTTP handler surface (package httpd).

Conventions of the embedding:
* Go times (time.Time) are modelled as integer nanoseconds counted from
  the Go zero time (year 1); the value 0 therefore corresponds exactly to
  a Go zero time, and t.IsZero() becomes t = 0.
* Go maps map[string]string are modelled as association lists with
  distinct keys; indexing p.Tags[k], which yields "" for a missing key,
  becomes tagsGet.
* Fallible Go functions returning (T, error) become Except String T.
-/

namespace Influxdb

/-- Go time modelled as nanoseconds since the Go zero time. -/
abbrev GoTime := Int

/-- Nanoseconds from the Go zero time to the Unix epoch. -/
def unixEpochNs : Int := 62135596800000000000

/-- Modelled from the spec: the precision unit in nanoseconds, precision
ranging over n, u, ms, s, m, h, and anything else meaning nanoseconds
(spec section 4.5 rule 2: otherwise nanoseconds). The client package that
defines the precision helpers is not part of the provided sources. -/
def precisionUnit : String → Int
  | "n" => 1
  | "u" => 1000
  | "ms" => 1000000
  | "s" => 1000000000
  | "m" => 60000000000
  | "h" => 3600000000000
  | _ => 1

/-- Modelled from the spec: client.SetPrecision truncates a time to the
precision unit (spec section 8: a timestamp equal to T truncated to
precision P). Go Time.Truncate rounds down to a multiple of the unit
counted from the zero time, hence floor division from our origin. -/
def setPrecision (t : GoTime) (precision : String) : GoTime :=
  precisionUnit precision * (Int.fdiv t (precisionUnit precision))

/-- Modelled from the spec: client.EpochToTime interprets an integer as a
Unix epoch count at the given precision (spec section 6: integer epoch at
the given precision). -/
def epochToTime (epoch : Int) (precision : String) : GoTime :=
  unixEpochNs + epoch * precisionUnit precision

/-- Go map[string]string as an association list. -/
abbrev Tags := List (String × String)

/-- Go map indexing: tags[k] is the value stored under the first
occurrence of the key and "" when the key is absent. -/
def tagsGet : Tags → String → String
  | [], _ => ""
  | e :: ts, k => if e.1 = k then e.2 else tagsGet ts k

/-- Go map update tags[k] = v: replace the binding in place when the key
is present, append it otherwise. -/
def tagsSet : Tags → String → String → Tags
  | [], k, v => [(k, v)]
  | e :: ts, k, v => if e.1 = k then (k, v) :: ts else e :: tagsSet ts k v

/-- Scalar field value; float64 is carried as its uninterpreted bit
pattern, the code under verification never inspects it. -/
inductive FieldValue
  | int (i : Int)
  | float (bits : Nat)
  | bool (b : Bool)
  | str (s : String)
deriving DecidableEq, Repr

/-- Go map[string]interface with scalar values, as an association list. -/
abbrev Values := List (String × FieldValue)

/-- client.Point: one point of the write body (package client, fields
Name, Tags, Timestamp, Precision, Values). -/
structure ClientPoint where
  name : String
  tags : Tags
  timestamp : GoTime
  precision : String
  values : Values
deriving DecidableEq, Repr

/-- BatchPoints is used to send batched data in a single write. -/
structure BatchPoints where
  points : List ClientPoint
  database : String
  retentionPolicy : String
  tags : Tags
  timestamp : GoTime
  precision : String
deriving DecidableEq, Repr

/-- influxdb.Point, the server-side point produced by normalization. -/
structure Point where
  name : String
  tags : Tags
  timestamp : GoTime
  values : Values
deriving DecidableEq, Repr

/-- Tag merge step of NormalizeBatchPoints: for each key of the batch
envelope, if the tag value of the point is empty the envelope value is
copied in (p.Tags[k] == "" in Go holds both for an absent key and for a
key stored with an empty value). -/
def mergeTags (ptags btags : Tags) : Tags :=
  btags.foldl (fun acc e => if tagsGet acc e.1 = "" then tagsSet acc e.1 e.2 else acc) ptags

/-- Body of the loop of NormalizeBatchPoints for one point. -/
def normalizePoint (bp : BatchPoints) (p : ClientPoint) : Point :=
  let p1 := if p.timestamp = 0 then { p with timestamp := bp.timestamp } else p
  let p2 := if p1.precision = "" ∧ bp.precision ≠ "" then { p1 with precision := bp.precision } else p1
  let p3 := { p2 with timestamp := setPrecision p2.timestamp p2.precision }
  let p4 := if bp.tags.length > 0 then { p3 with tags := mergeTags p3.tags bp.tags } else p3
  { name := p4.name, tags := p4.tags, timestamp := p4.timestamp, values := p4.values }

/-- NormalizeBatchPoints returns a slice of Points, created by populating
individual points within the batch, which do not have timestamps or tags,
with the top-level values. The Go loop appends one converted point per
input point and the function always returns a nil error. -/
def NormalizeBatchPoints (bp : BatchPoints) : Except String (List Point) :=
  Except.ok (bp.points.map (normalizePoint bp))

/-- Shape of the top-level timestamp field of a JSON write body. -/
inductive JsonTs
  | absent
  | num (i : Int)
  | str (s : String)
  | other
deriving DecidableEq, Repr

/-- Abstract JSON write body: the envelope fields other than the
timestamp are represented already decoded, since both structs of
BatchPoints.UnmarshalJSON declare them with identical types and JSON tags
and json.Unmarshal treats them identically. -/
structure WriteBody where
  points : List ClientPoint
  database : String
  retentionPolicy : String
  tags : Tags
  timestamp : JsonTs
  precision : String
deriving DecidableEq, Repr

/-- json.Unmarshal of the top-level timestamp into the epoch struct,
whose Timestamp field is a pointer to int64: an absent field leaves nil,
a JSON number gives the integer, any other shape fails. -/
def decodeEpochTs : JsonTs → Except String (Option Int)
  | JsonTs.absent => Except.ok none
  | JsonTs.num i => Except.ok (some i)
  | JsonTs.str _ => Except.error "cannot unmarshal string into field of type int64"
  | JsonTs.other => Except.error "cannot unmarshal value into field of type int64"

/-- json.Unmarshal of the top-level timestamp into the normal struct,
whose Timestamp field is a time.Time: an absent field leaves the zero
time, a JSON string goes through the RFC3339 time parser timeParse
(external to the sources, kept abstract), any other shape fails. -/
def decodeNormalTs (timeParse : String → Except String GoTime) : JsonTs → Except String GoTime
  | JsonTs.absent => Except.ok 0
  | JsonTs.str s => timeParse s
  | JsonTs.num _ => Except.error "cannot unmarshal number into field of type time.Time"
  | JsonTs.other => Except.error "cannot unmarshal value into field of type time.Time"

/-- Epoch branch of BatchPoints.UnmarshalJSON: decode with the timestamp
read as an integer epoch, then convert it at the given precision; a nil
timestamp leaves the zero time. -/
def epochDecode (b : WriteBody) : Except String BatchPoints :=
  match decodeEpochTs b.timestamp with
  | Except.error e => Except.error e
  | Except.ok none =>
    Except.ok { points := b.points, database := b.database, retentionPolicy := b.retentionPolicy,
                tags := b.tags, timestamp := 0, precision := b.precision }
  | Except.ok (some i) =>
    Except.ok { points := b.points, database := b.database, retentionPolicy := b.retentionPolicy,
                tags := b.tags, timestamp := epochToTime i b.precision, precision := b.precision }

/-- Normal branch of BatchPoints.UnmarshalJSON: decode with the timestamp
read as a time string, then apply SetPrecision to it. -/
def normalDecode (timeParse : String → Except String GoTime) (b : WriteBody) : Except String BatchPoints :=
  match decodeNormalTs timeParse b.timestamp with
  | Except.error e => Except.error e
  | Except.ok t =>
    Except.ok { points := b.points, database := b.database, retentionPolicy := b.retentionPolicy,
                tags := b.tags, timestamp := setPrecision t b.precision, precision := b.precision }

/-- BatchPoints.UnmarshalJSON: try the epoch form first and return its
result on success; otherwise fall back to the normal (time string) form. -/
def unmarshalBatchPoints (timeParse : String → Except String GoTime) (b : WriteBody) : Except String BatchPoints :=
  match epochDecode b with
  | Except.ok bp => Except.ok bp
  | Except.error _ => normalDecode timeParse b

end Influxdb

namespace Httpd

open Influxdb

/-- influxdb.User; only its identity matters to the handler layer. -/
structure User where
  name : String
deriving DecidableEq, Repr

/-- The parts of an http.Request read by the handler layer: the method,
the query parameters u and p, the Basic Auth header if parseable, the
Origin header and the Accept-Encoding header. -/
structure Request where
  method : String
  paramU : String
  paramP : String
  basicAuth : Option (String × String)
  origin : String
  acceptEncoding : String
deriving DecidableEq, Repr

/-- Observable response: status (200 when the Go handler never calls
WriteHeader, matching the net/http default), response headers, body, and
the web log lines emitted while serving. -/
structure Response where
  status : Nat
  headers : List (String × String)
  body : String
  logs : List String
deriving DecidableEq, Repr

/-- Outcome of running a handler: a normal response, or a Go panic
carrying its message. -/
inductive HResult
  | ok (resp : Response)
  | panicked (msg : String)
deriving DecidableEq, Repr

/-- http.Handler. -/
abbrev Handler := Request → HResult

/-- httpError writes an error to the client in a standard format: the
content-type header, the status code, and a Results envelope holding the
message (the body is modelled by the message itself). -/
def httpError (msg : String) (code : Nat) : Response :=
  { status := code, headers := [("content-type", "application/json")], body := msg, logs := [] }

/-- parseCredentials returns the username and password encoded in a
request: URL query params u and p when both non-empty, else HTTP Basic
Auth, else an error. -/
def parseCredentials (r : Request) : Except String (String × String) :=
  if r.paramU != "" && r.paramP != "" then Except.ok (r.paramU, r.paramP)
  else
    match r.basicAuth with
    | some (u, p) => Except.ok (u, p)
    | none => Except.error "unable to parse Basic Auth credentials"

/-- authenticate wraps a handler taking a user. When authentication is
not required, or the server has no users (bootstrap exception), the inner
handler runs with a nil user; otherwise credentials are parsed and
checked by server.Authenticate (kept abstract as authUser), any failure
answering 401 without running the inner handler. -/
def authenticate (inner : Option User → Handler) (userCount : Nat)
    (authUser : String → String → Except String User)
    (requireAuthentication : Bool) : Handler :=
  fun r =>
    if !requireAuthentication then inner none r
    else
      if userCount > 0 then
        match parseCredentials r with
        | Except.error e => HResult.ok (httpError e 401)
        | Except.ok (username, password) =>
          if username = "" then HResult.ok (httpError "username required" 401)
          else
            match authUser username password with
            | Except.error e => HResult.ok (httpError e 401)
            | Except.ok user => inner (some user) r
      else inner none r

/-- gzipFilter passes the request through untouched unless the client
accepts gzip, in which case the Content-Encoding header is set and the
body is written through a gzip writer (compression itself is not
observable here). -/
def gzipFilter (inner : Handler) : Handler :=
  fun r =>
    if !(String.containsSubstr r.acceptEncoding "gzip") then inner r
    else
      match inner r with
      | HResult.ok resp => HResult.ok { resp with headers := ("Content-Encoding", "gzip") :: resp.headers }
      | HResult.panicked e => HResult.panicked e

/-- versionHeader adds the X-Influxdb-Version header to outgoing
responses. -/
def versionHeader (inner : Handler) (version : String) : Handler :=
  fun r =>
    match inner r with
    | HResult.ok resp => HResult.ok { resp with headers := ("X-Influxdb-Version", version) :: resp.headers }
    | HResult.panicked e => HResult.panicked e

/-- The CORS headers set when the request carries an Origin header. -/
def corsHeaders (origin : String) : List (String × String) :=
  [("Access-Control-Allow-Origin", origin),
   ("Access-Control-Allow-Methods", "DELETE, GET, OPTIONS, POST, PUT"),
   ("Access-Control-Allow-Headers",
    "Accept, Accept-Encoding, Authorization, Content-Length, Content-Type, X-CSRF-Token, X-HTTP-Method-Override")]

/-- cors sets the Access-Control headers when an Origin is present and,
for an OPTIONS request, returns immediately without invoking the inner
handler (an unwritten status is the implicit 200 of net/http). -/
def cors (inner : Handler) : Handler :=
  fun r =>
    let hs := if r.origin != "" then corsHeaders r.origin else []
    if r.method = "OPTIONS" then
      HResult.ok { status := 200, headers := hs, body := "", logs := [] }
    else
      match inner r with
      | HResult.ok resp => HResult.ok { resp with headers := hs ++ resp.headers }
      | HResult.panicked e => HResult.panicked e

/-- requestID draws a fresh UUID (modelled by the parameter uid), sets it
on the request and echoes it in the Request-Id response header. -/
def requestID (inner : Handler) (uid : String) : Handler :=
  fun r =>
    match inner r with
    | HResult.ok resp => HResult.ok { resp with headers := ("Request-Id", uid) :: resp.headers }
    | HResult.panicked e => HResult.panicked e

/-- logging serves the request and then prints one web log line (modelled
by the route name); when the inner handler panics, the println after the
ServeHTTP call is never reached. -/
def logging (inner : Handler) (name : String) : Handler :=
  fun r =>
    match inner r with
    | HResult.ok resp => HResult.ok { resp with logs := resp.logs ++ [name] }
    | HResult.panicked e => HResult.panicked e

/-- recovery wraps inner. In the source the call to recover() is NOT made
inside a deferred function: when inner.ServeHTTP returns normally,
recover() yields nil and the logging branch is dead; when inner panics,
the stack unwinds past this frame before the recover() line is reached,
so the panic propagates. The wrapper is therefore behaviorally
transparent. -/
def recovery (inner : Handler) (_name : String) : Handler :=
  fun r =>
    match inner r with
    | HResult.ok resp => HResult.ok resp
    | HResult.panicked e => HResult.panicked e

/-- The per-route wrapping loop of NewHandler: the handler is wrapped by
authenticate, then gzipFilter, versionHeader, cors, requestID, logging
and recovery, in this order of application. -/
def buildRouteHandler (hf : Option User → Handler) (userCount : Nat)
    (authUser : String → String → Except String User)
    (requireAuthentication : Bool) (version uid name : String) : Handler :=
  let handler := authenticate hf userCount authUser requireAuthentication
  let handler := gzipFilter handler
  let handler := versionHeader handler version
  let handler := cors handler
  let handler := requestID handler uid
  let handler := logging handler name
  let handler := recovery handler name
  handler

/-- Outcome of serveWrite: the status written (200 when the handler falls
off the end without writing one), the error body if any, and whether
server.WriteSeries was invoked. -/
structure WriteResponse where
  status : Nat
  body : Option String
  writeCalled : Bool
deriving DecidableEq, Repr

/-- Go %q quoting of a database name (escape-free names shown as-is in
double quotes). -/
def goQuote (s : String) : String := "\"" ++ s ++ "\""

/-- serveWrite receives incoming series data and writes it to the
database. The JSON decode of the request body is represented by its
outcome; server.DatabaseExists, the write authorization of the request
user and server.WriteSeries are parameters. -/
def serveWrite (decoded : Except String BatchPoints)
    (databaseExists : String → Bool)
    (requireAuthentication : Bool)
    (authorizeWrite : String → Bool)
    (writeSeries : String → String → List Point → Except String Nat) : WriteResponse :=
  match decoded with
  | Except.error e =>
    if e = "EOF" then { status := 200, body := none, writeCalled := false }
    else { status := 500, body := some e, writeCalled := false }
  | Except.ok bp =>
    if bp.database = "" then
      { status := 500, body := some "database is required", writeCalled := false }
    else if !(databaseExists bp.database) then
      { status := 404, body := some ("database not found: " ++ goQuote bp.database), writeCalled := false }
    else if requireAuthentication && !(authorizeWrite bp.database) then
      { status := 401, body := some "user is not authorized to write to database", writeCalled := false }
    else
      match NormalizeBatchPoints bp with
      | Except.error e => { status := 500, body := some e, writeCalled := false }
      | Except.ok points =>
        match writeSeries bp.database bp.retentionPolicy points with
        | Except.error e => { status := 500, body := some e, writeCalled := true }
        | Except.ok _ => { status := 200, body := none, writeCalled := true }

/-- dataNodeJSON, the wire form of a data node. -/
structure DataNodeJSON where
  id : Nat
  url : String
deriving DecidableEq, Repr

/-- Outcome of server.CreateDataNode: success, the ErrDataNodeExists
sentinel, or another error. -/
inductive CreateNodeErr
  | nodeExists
  | other (msg : String)
deriving DecidableEq, Repr

/-- Response of the data node handler: status and body. -/
structure NodeResponse where
  status : Nat
  body : String
deriving DecidableEq, Repr

/-- Stands for the JSON encoding of dataNodeJSON with the given id and
url. -/
def dataNodeBody (id : Nat) (url : String) : String :=
  "dataNodeJSON id=" ++ toString id ++ " url=" ++ url

/-- serveCreateDataNode creates a new data node in the cluster: body
decode failure answers 400, a URL parse failure answers 400, a duplicate
node answers 409, another creation failure 500; then the broker replica
is created for the registered node, failure answering 502, and success
answers 201 with the node id and URL. -/
def serveCreateDataNode (decoded : Except String DataNodeJSON)
    (parseURL : String → Except String String)
    (createDataNode : String → Option CreateNodeErr)
    (dataNodeByURL : String → DataNodeJSON)
    (createReplica : Nat → Option String) : NodeResponse :=
  match decoded with
  | Except.error e => { status := 400, body := e }
  | Except.ok n =>
    match parseURL n.url with
    | Except.error _ => { status := 400, body := "invalid data node url" }
    | Except.ok u =>
      match createDataNode u with
      | some CreateNodeErr.nodeExists => { status := 409, body := "data node exists" }
      | some (CreateNodeErr.other e) => { status := 500, body := e }
      | none =>
        let node := dataNodeByURL u
        match createReplica node.id with
        | some e => { status := 502, body := e }
        | none => { status := 201, body := dataNodeBody node.id node.url }

end Httpd

namespace Influxdb

/-- Default point used as the getD fallback in statements. -/
def dfltPoint : Point := { name := "", tags := [], timestamp := 0, values := [] }

/-- Default client point used as the getD fallback in statements. -/
def dfltClientPoint : ClientPoint :=
  { name := "", tags := [], timestamp := 0, precision := "", values := [] }

/-- Batch whose only point and whose envelope both lack a timestamp. -/
def czBatch : BatchPoints :=
  { points := [{ name := "cpu", tags := [], timestamp := 0, precision := "",
                 values := [("v", FieldValue.int 1)] }],
    database := "db", retentionPolicy := "", tags := [], timestamp := 0, precision := "" }

/-- Batch whose only point lacks a timestamp while the envelope carries
the epoch second 5 at precision s. -/
def c1wBatch : BatchPoints :=
  { points := [{ name := "cpu", tags := [], timestamp := 0, precision := "",
                 values := [("v", FieldValue.int 1)] }],
    database := "db", retentionPolicy := "", tags := [], timestamp := 5000000000,
    precision := "s" }

/-- The normalization output of c1wBatch. -/
def c1wPts : List Point :=
  [{ name := "cpu", tags := [], timestamp := 5000000000, values := [("v", FieldValue.int 1)] }]

/-- Batch whose only point has an empty measurement name and no values. -/
def cBadBatch : BatchPoints :=
  { points := [{ name := "", tags := [], timestamp := 5, precision := "", values := [] }],
    database := "db", retentionPolicy := "", tags := [], timestamp := 0, precision := "" }

/-- Batch whose only point stores the tag key host with an empty value
while the envelope stores host with the value a. -/
def c3Batch : BatchPoints :=
  { points := [{ name := "cpu", tags := [("host", "")], timestamp := 7, precision := "",
                 values := [("v", FieldValue.int 1)] }],
    database := "db", retentionPolicy := "", tags := [("host", "a")], timestamp := 0,
    precision := "" }

/-- Batch whose only point carries no tags while the envelope carries
host = a. -/
def c3wBatch : BatchPoints :=
  { points := [{ name := "cpu", tags := [], timestamp := 7, precision := "",
                 values := [("v", FieldValue.int 1)] }],
    database := "db", retentionPolicy := "", tags := [("host", "a")], timestamp := 0,
    precision := "" }

/-- The normalization output of c3wBatch. -/
def c3wPts : List Point :=
  [{ name := "cpu", tags := [("host", "a")], timestamp := 7,
     values := [("v", FieldValue.int 1)] }]

/-- Sample RFC3339 parser outcome used to instantiate the abstract time
parser. -/
def c7TimeParse : String → Except String GoTime := fun _ => Except.ok 1000000000

/-- Write body whose timestamp is the integer epoch 1700000000. -/
def c7NumBody : WriteBody :=
  { points := [], database := "db", retentionPolicy := "", tags := [],
    timestamp := JsonTs.num 1700000000, precision := "s" }

/-- Write body whose timestamp is a time string. -/
def c7StrBody : WriteBody :=
  { points := [], database := "db", retentionPolicy := "", tags := [],
    timestamp := JsonTs.str "2020-01-01T00:00:00Z", precision := "s" }

end Influxdb

namespace Httpd

open Influxdb

/-- Sample request without credentials, Origin or Accept-Encoding. -/
def cReq : Request :=
  { method := "GET", paramU := "", paramP := "", basicAuth := none, origin := "",
    acceptEncoding := "" }

/-- Sample OPTIONS request. -/
def cOptReq : Request :=
  { method := "OPTIONS", paramU := "", paramP := "", basicAuth := none, origin := "",
    acceptEncoding := "" }

/-- Handler that panics on every request. -/
def cPanicHandler : Handler := fun _ => HResult.panicked "boom"

/-- Sample inner handler taking a user. -/
def cInner : Option User → Handler :=
  fun _ _ => HResult.ok { status := 200, headers := [], body := "inner", logs := [] }

/-- Second sample handler, distinguishable from the first. -/
def cHandlerA : Handler :=
  fun _ => HResult.ok { status := 200, headers := [], body := "a", logs := [] }

/-- Third sample handler, distinguishable from the others. -/
def cHandlerB : Handler :=
  fun _ => HResult.ok { status := 204, headers := [], body := "b", logs := [] }

/-- Sample server authentication that rejects every credential pair. -/
def cAuthUser : String → String → Except String User :=
  fun _ _ => Except.error "invalid credentials"

/-- Sample batch without a database name. -/
def cbpNoDb : BatchPoints :=
  { points := [], database := "", retentionPolicy := "", tags := [], timestamp := 0,
    precision := "" }

/-- Sample batch naming a database that does not exist. -/
def cbpDb : BatchPoints :=
  { points := [], database := "nope", retentionPolicy := "", tags := [], timestamp := 0,
    precision := "" }

/-- Database existence oracle that knows no databases. -/
def cFalseExists : String → Bool := fun _ => false

/-- Authorization oracle that admits every write. -/
def cTrueAuth : String → Bool := fun _ => true

/-- WriteSeries stub that accepts every write. -/
def cWS : String → String → List Point → Except String Nat := fun _ _ _ => Except.ok 0

/-- Sample wire data node. -/
def c8Node : DataNodeJSON := { id := 0, url := "http://a:8086" }

/-- Data node lookup assigning id 1 to every URL. -/
def c8ByURL : String → DataNodeJSON := fun u => { id := 1, url := u }

/-- URL parser that accepts every string. -/
def c8ParseOk : String → Except String String := fun s => Except.ok s

/-- URL parser that rejects every string. -/
def c8ParseErr : String → Except String String := fun _ => Except.error "parse"

/-- Node creation that succeeds. -/
def c8CreateOk : String → Option CreateNodeErr := fun _ => none

/-- Node creation that reports a duplicate. -/
def c8CreateDup : String → Option CreateNodeErr := fun _ => some CreateNodeErr.nodeExists

/-- Broker replica creation that succeeds. -/
def c8ReplicaOk : Nat → Option String := fun _ => none

/-- Broker replica creation that fails. -/
def c8ReplicaErr : Nat → Option String := fun _ => some "replica failed"

end Httpd
namespace Influxdb

theorem mergeTags_cons (acc : Tags) (e : String × String) (bs : Tags) :
    mergeTags acc (e :: bs) =
      mergeTags (if tagsGet acc e.1 = "" then tagsSet acc e.1 e.2 else acc) bs := rfl

theorem tagsGet_tagsSet_self (ts : Tags) (k v : String) :
    tagsGet (tagsSet ts k v) k = v := by
  induction ts with
  | nil => simp [tagsSet, tagsGet]
  | cons e ts ih =>
    by_cases h : e.1 = k
    · simp [tagsSet, tagsGet, h]
    · simp [tagsSet, tagsGet, h, ih]

theorem tagsGet_tagsSet_ne (ts : Tags) (k v k2 : String) (hne : k2 ≠ k) :
    tagsGet (tagsSet ts k v) k2 = tagsGet ts k2 := by
  have hkk : k ≠ k2 := fun hh => hne hh.symm
  induction ts with
  | nil => simp [tagsSet, tagsGet, hkk]
  | cons e ts ih =>
    by_cases h : e.1 = k
    · have h2 : e.1 ≠ k2 := by rw [h]; exact hkk
      simp [tagsSet, tagsGet, h, h2, hkk]
    · by_cases h3 : e.1 = k2
      · simp [tagsSet, tagsGet, h, h3, hne]
      · simp [tagsSet, tagsGet, h, h3, ih]

/-- Keys absent from an association list read as the empty string. -/
theorem tagsGet_eq_empty_of_not_mem (ts : Tags) (k : String)
    (h : k ∉ ts.map Prod.fst) : tagsGet ts k = "" := by
  induction ts with
  | nil => rfl
  | cons e ts ih =>
    simp only [List.map_cons, List.mem_cons, not_or] at h
    have h1 : e.1 ≠ k := fun hh => h.1 hh.symm
    simp [tagsGet, h1, ih h.2]

/-- Setting an absent key appends the binding. -/
theorem tagsSet_eq_append_of_not_mem (ts : Tags) (k v : String)
    (h : k ∉ ts.map Prod.fst) : tagsSet ts k v = ts ++ [(k, v)] := by
  induction ts with
  | nil => rfl
  | cons e ts ih =>
    simp only [List.map_cons, List.mem_cons, not_or] at h
    have h1 : e.1 ≠ k := fun hh => h.1 hh.symm
    simp [tagsSet, h1, ih h.2]

/-- One merge step never changes a key distinct from the key of the
processed envelope entry. -/
theorem mergeStep_get_ne (acc : Tags) (e : String × String) (k : String) (h : e.1 ≠ k) :
    tagsGet (if tagsGet acc e.1 = "" then tagsSet acc e.1 e.2 else acc) k = tagsGet acc k := by
  by_cases hg : tagsGet acc e.1 = ""
  · simp [hg, tagsGet_tagsSet_ne acc e.1 e.2 k (fun hh => h hh.symm)]
  · simp [hg]

/-- A key whose point value is non-empty is never overwritten by the
merge fold. -/
theorem mergeTags_get_of_ne_empty (btags : Tags) (acc : Tags) (k : String)
    (h : tagsGet acc k ≠ "") :
    tagsGet (mergeTags acc btags) k = tagsGet acc k := by
  induction btags generalizing acc with
  | nil => rfl
  | cons e bs ih =>
    rw [mergeTags_cons]
    by_cases he : e.1 = k
    · subst he
      rw [if_neg h]
      exact ih acc h
    · have hstep := mergeStep_get_ne acc e k he
      rw [ih _ (by rw [hstep]; exact h), hstep]

/-- The merge fold leaves keys that do not occur in the envelope
untouched. -/
theorem mergeTags_get_of_not_mem (btags : Tags) (acc : Tags) (k : String)
    (h : k ∉ btags.map Prod.fst) :
    tagsGet (mergeTags acc btags) k = tagsGet acc k := by
  induction btags generalizing acc with
  | nil => rfl
  | cons e bs ih =>
    simp only [List.map_cons, List.mem_cons, not_or] at h
    have h1 : e.1 ≠ k := fun hh => h.1 hh.symm
    rw [mergeTags_cons, ih _ h.2]
    exact mergeStep_get_ne acc e k h1

/-- A key whose point value is empty receives the envelope value. -/
theorem mergeTags_get_of_empty (btags : Tags) (acc : Tags) (k : String)
    (hnd : (btags.map Prod.fst).Nodup) (h : tagsGet acc k = "") :
    tagsGet (mergeTags acc btags) k = tagsGet btags k := by
  induction btags generalizing acc with
  | nil => simpa [mergeTags, tagsGet] using h
  | cons e bs ih =>
    simp only [List.map_cons, List.nodup_cons] at hnd
    rw [mergeTags_cons]
    by_cases he : e.1 = k
    · subst he
      rw [if_pos h, mergeTags_get_of_not_mem bs (tagsSet acc e.1 e.2) e.1 hnd.1,
        tagsGet_tagsSet_self]
      simp [tagsGet]
    · have hstep : tagsGet (if tagsGet acc e.1 = "" then tagsSet acc e.1 e.2 else acc) k = "" := by
        rw [mergeStep_get_ne acc e k he]; exact h
      rw [ih _ hnd.2 hstep]
      simp [tagsGet, he]

/-- Merging into a point tag map disjoint from the envelope appends the
envelope exactly; with an empty point tag map it copies it verbatim. -/
theorem mergeTags_append_of_disjoint (btags : Tags) (acc : Tags)
    (hnd : (btags.map Prod.fst).Nodup)
    (hdisj : ∀ x ∈ btags.map Prod.fst, x ∉ acc.map Prod.fst) :
    mergeTags acc btags = acc ++ btags := by
  induction btags generalizing acc with
  | nil => simp [mergeTags]
  | cons e bs ih =>
    simp only [List.map_cons, List.nodup_cons] at hnd
    have hmem : e.1 ∉ acc.map Prod.fst := hdisj e.1 (by simp)
    have hg : tagsGet acc e.1 = "" := tagsGet_eq_empty_of_not_mem acc e.1 hmem
    rw [mergeTags_cons, if_pos hg, tagsSet_eq_append_of_not_mem acc e.1 e.2 hmem]
    have heq : (acc ++ [(e.1, e.2)]) ++ bs = acc ++ (e :: bs) := by simp
    rw [← heq]
    apply ih
    · exact hnd.2
    · intro x hx
      simp only [List.map_append, List.mem_append]
      rintro (hxa | hxe)
      · exact hdisj x (by simp [hx]) hxa
      · simp at hxe
        exact hnd.1 (hxe ▸ hx)


theorem setPrecision_zero (p : String) : setPrecision 0 p = 0 := by
  simp [setPrecision, Int.zero_fdiv]

theorem normalizePoint_tags (bp : BatchPoints) (p : ClientPoint) (h : bp.tags ≠ []) :
    (normalizePoint bp p).tags = mergeTags p.tags bp.tags := by
  have hlen : 0 < bp.tags.length := List.length_pos.mpr h
  unfold normalizePoint
  split_ifs <;> simp_all [apply_ite ClientPoint.tags, apply_ite ClientPoint.timestamp, apply_ite ClientPoint.precision]

theorem normalizePoint_tags_nil (bp : BatchPoints) (p : ClientPoint) (h : bp.tags = []) :
    (normalizePoint bp p).tags = p.tags := by
  unfold normalizePoint
  split_ifs <;> simp_all [apply_ite ClientPoint.tags, apply_ite ClientPoint.timestamp, apply_ite ClientPoint.precision]

theorem normalizePoint_timestamp (bp : BatchPoints) (p : ClientPoint) :
    (normalizePoint bp p).timestamp =
      setPrecision (if p.timestamp = 0 then bp.timestamp else p.timestamp)
        (if p.precision = "" ∧ bp.precision ≠ "" then bp.precision else p.precision) := by
  by_cases h1 : p.timestamp = 0 <;> by_cases h2 : p.precision = "" ∧ bp.precision ≠ "" <;>
    simp [normalizePoint, h1, h2, apply_ite ClientPoint.timestamp, apply_ite ClientPoint.precision,
      apply_ite ClientPoint.tags]

theorem normalize_getD (bp : BatchPoints) (pts : List Point)
    (h : NormalizeBatchPoints bp = Except.ok pts) (i : Nat) (hi : i < bp.points.length)
    (dP : Point) (dC : ClientPoint) :
    pts.getD i dP = normalizePoint bp (bp.points.getD i dC) := by
  have hpts : pts = bp.points.map (normalizePoint bp) := by
    have h2 := h
    simp only [NormalizeBatchPoints, Except.ok.injEq] at h2
    exact h2.symm
  subst hpts
  have hi2 : i < (bp.points.map (normalizePoint bp)).length := by simpa using hi
  rw [List.getD_eq_getElem _ _ hi2, List.getD_eq_getElem _ _ hi, List.getElem_map]

theorem normalize_length (bp : BatchPoints) (pts : List Point)
    (h : NormalizeBatchPoints bp = Except.ok pts) :
    pts.length = bp.points.length := by
  have hpts : pts = bp.points.map (normalizePoint bp) := by
    have h2 := h
    simp only [NormalizeBatchPoints, Except.ok.injEq] at h2
    exact h2.symm
  subst hpts
  simp

end Influxdb
namespace Influxdb

/-- C1 (corrected): for every batch B, NormalizeBatchPoints(B) returns a
list of exactly as many points as B carries; a point lacking a timestamp
(the zero time) inherits the batch timestamp, and the output timestamp is
the precision truncation of the inherited one; when the batch timestamp
is also missing the output timestamp stays the zero time, no wall-clock
time is assigned. -/
theorem normalizeBatchPoints_length_inherit (bp : BatchPoints) (pts : List Point)
    (h : NormalizeBatchPoints bp = Except.ok pts) :
    pts.length = bp.points.length ∧
    ∀ i, i < bp.points.length → ∀ dP dC,
      (pts.getD i dP).timestamp =
        setPrecision
          (if (bp.points.getD i dC).timestamp = 0 then bp.timestamp
            else (bp.points.getD i dC).timestamp)
          (if (bp.points.getD i dC).precision = "" ∧ bp.precision ≠ "" then bp.precision
            else (bp.points.getD i dC).precision) ∧
      ((bp.points.getD i dC).timestamp = 0 → bp.timestamp = 0 →
        (pts.getD i dP).timestamp = 0) := by
  refine ⟨normalize_length bp pts h, ?_⟩
  intro i hi dP dC
  rw [normalize_getD bp pts h i hi dP dC]
  have hts := normalizePoint_timestamp bp (bp.points.getD i dC)
  refine ⟨hts, ?_⟩
  intro h1 h2
  rw [hts, if_pos h1, h2, setPrecision_zero]

/-- C1 witness: on c1wBatch the hypotheses hold and the inherited
timestamp is the batch epoch second truncated at precision s. -/
theorem normalizeBatchPoints_length_inherit_witness :
    c1wPts.length = c1wBatch.points.length ∧
    (c1wPts.getD 0 dfltPoint).timestamp = 5000000000 := by
  refine ⟨(normalizeBatchPoints_length_inherit c1wBatch c1wPts rfl).1, ?_⟩
  have h := ((normalizeBatchPoints_length_inherit c1wBatch c1wPts rfl).2 0 (by decide)
    dfltPoint dfltClientPoint).1
  rw [h]
  rfl

/-- C1 counterexample: a batch whose point and envelope both lack a
timestamp normalizes to a point whose timestamp is still the zero time,
refuting the claim that every returned point has a non-zero timestamp
(wall-clock now is never assigned). -/
theorem normalizeBatchPoints_zero_timestamp_cex :
    NormalizeBatchPoints czBatch =
      Except.ok [{ name := "cpu", tags := [], timestamp := 0,
                   values := [("v", FieldValue.int 1)] }] := rfl

/-- C2 (corrected): NormalizeBatchPoints performs no validation at all
and always succeeds, returning a nil error for every batch, including
batches whose points have an empty measurement name or no values. -/
theorem normalizeBatchPoints_no_validation (bp : BatchPoints) :
    (NormalizeBatchPoints bp).isOk = true := rfl

/-- C2 counterexample: a batch whose only point has an empty measurement
name and an empty value map still normalizes successfully, refuting the
claim that normalization fails on such points. -/
theorem normalizeBatchPoints_accepts_invalid_cex :
    (NormalizeBatchPoints cBadBatch).isOk = true ∧
    cBadBatch.points = [{ name := "", tags := [], timestamp := 5, precision := "",
                          values := [] }] :=
  ⟨rfl, rfl⟩

/-- C3 (corrected): with a non-empty envelope tag map of distinct keys,
normalization copies an envelope tag into a point exactly when the value
of the point for that key is empty, which covers both an absent key and a
key stored with an empty value; a point tag with a non-empty value takes
precedence, and a point with no tags ends up with exactly the envelope
tags. -/
theorem normalize_tags_merge (bp : BatchPoints) (pts : List Point)
    (h : NormalizeBatchPoints bp = Except.ok pts)
    (hnd : (bp.tags.map Prod.fst).Nodup) (hne : bp.tags ≠ [])
    (i : Nat) (hi : i < bp.points.length) (dP : Point) (dC : ClientPoint) :
    (∀ k, tagsGet (bp.points.getD i dC).tags k ≠ "" →
      tagsGet (pts.getD i dP).tags k = tagsGet (bp.points.getD i dC).tags k) ∧
    (∀ k, tagsGet (bp.points.getD i dC).tags k = "" →
      tagsGet (pts.getD i dP).tags k = tagsGet bp.tags k) ∧
    ((bp.points.getD i dC).tags = [] → (pts.getD i dP).tags = bp.tags) := by
  rw [normalize_getD bp pts h i hi dP dC, normalizePoint_tags bp _ hne]
  refine ⟨?_, ?_, ?_⟩
  · intro k hk
    exact mergeTags_get_of_ne_empty bp.tags _ k hk
  · intro k hk
    exact mergeTags_get_of_empty bp.tags _ k hnd hk
  · intro hp
    rw [hp]
    have hmerge := mergeTags_append_of_disjoint bp.tags [] hnd (by intro x hx; simp)
    simpa using hmerge

/-- C3 witness: a point with no tags inherits exactly the envelope tag
host = a. -/
theorem normalize_tags_merge_witness :
    (c3wPts.getD 0 dfltPoint).tags = c3wBatch.tags :=
  (normalize_tags_merge c3wBatch c3wPts rfl (by decide) (by decide) 0 (by decide)
    dfltPoint dfltClientPoint).2.2 rfl

/-- C3 counterexample: the point stores the tag key host with the empty
value, so the key is present on the point, yet normalization overwrites
it with the envelope value a instead of keeping the value of the point,
refuting the claim that a key already present always keeps the value of
the point. -/
theorem normalize_tags_empty_value_cex :
    NormalizeBatchPoints c3Batch =
      Except.ok [{ name := "cpu", tags := [("host", "a")], timestamp := 7,
                   values := [("v", FieldValue.int 1)] }] ∧
    tagsGet [("host", "")] "host" = "" :=
  ⟨rfl, rfl⟩

/-- C7 (confirmed): BatchPoints.UnmarshalJSON first attempts the integer
epoch interpretation of the top-level timestamp, converting it at the
given precision, and only on failure of that interpretation falls back to
the time string form; in both branches the remaining envelope fields
(points, database, retentionPolicy, tags, precision) are decoded
identically from the body. -/
theorem unmarshalBatchPoints_epoch_first (timeParse : String → Except String GoTime)
    (b : WriteBody) :
    (∀ bp, epochDecode b = Except.ok bp →
      unmarshalBatchPoints timeParse b = Except.ok bp) ∧
    (∀ e, epochDecode b = Except.error e →
      unmarshalBatchPoints timeParse b = normalDecode timeParse b) ∧
    (∀ i, b.timestamp = JsonTs.num i →
      unmarshalBatchPoints timeParse b = Except.ok
        { points := b.points, database := b.database, retentionPolicy := b.retentionPolicy,
          tags := b.tags, timestamp := epochToTime i b.precision, precision := b.precision }) ∧
    (∀ s t, b.timestamp = JsonTs.str s → timeParse s = Except.ok t →
      unmarshalBatchPoints timeParse b = Except.ok
        { points := b.points, database := b.database, retentionPolicy := b.retentionPolicy,
          tags := b.tags, timestamp := setPrecision t b.precision, precision := b.precision }) ∧
    (∀ bp, unmarshalBatchPoints timeParse b = Except.ok bp →
      bp.points = b.points ∧ bp.database = b.database ∧
      bp.retentionPolicy = b.retentionPolicy ∧ bp.tags = b.tags ∧
      bp.precision = b.precision) := by
  refine ⟨?_, ?_, ?_, ?_, ?_⟩
  · intro bp hok
    unfold unmarshalBatchPoints
    rw [hok]
  · intro e he
    unfold unmarshalBatchPoints
    rw [he]
  · intro i hts
    simp [unmarshalBatchPoints, epochDecode, decodeEpochTs, hts]
  · intro s t hts hp
    simp [unmarshalBatchPoints, epochDecode, decodeEpochTs, normalDecode, decodeNormalTs,
      hts, hp]
  · intro bp hok
    cases hts : b.timestamp with
    | absent =>
      simp [unmarshalBatchPoints, epochDecode, decodeEpochTs, hts] at hok
      simp [← hok]
    | num i =>
      simp [unmarshalBatchPoints, epochDecode, decodeEpochTs, hts] at hok
      simp [← hok]
    | str s =>
      cases hp : timeParse s with
      | ok t =>
        simp [unmarshalBatchPoints, epochDecode, decodeEpochTs, normalDecode, decodeNormalTs,
          hts, hp] at hok
        simp [← hok]
      | error e =>
        simp [unmarshalBatchPoints, epochDecode, decodeEpochTs, normalDecode, decodeNormalTs,
          hts, hp] at hok
    | other =>
      simp [unmarshalBatchPoints, epochDecode, decodeEpochTs, normalDecode, decodeNormalTs,
        hts] at hok

/-- C7 witness: a numeric timestamp decodes through the epoch branch and
a string timestamp through the fallback branch, other envelope fields
unchanged. -/
theorem unmarshalBatchPoints_epoch_first_witness :
    unmarshalBatchPoints c7TimeParse c7NumBody = Except.ok
      { points := [], database := "db", retentionPolicy := "", tags := [],
        timestamp := epochToTime 1700000000 "s", precision := "s" } ∧
    unmarshalBatchPoints c7TimeParse c7StrBody = Except.ok
      { points := [], database := "db", retentionPolicy := "", tags := [],
        timestamp := setPrecision 1000000000 "s", precision := "s" } :=
  ⟨(unmarshalBatchPoints_epoch_first c7TimeParse c7NumBody).2.2.1 1700000000 rfl,
   (unmarshalBatchPoints_epoch_first c7TimeParse c7StrBody).2.2.2.1 "2020-01-01T00:00:00Z"
     1000000000 rfl rfl⟩

end Influxdb

namespace Httpd

open Influxdb

/-- C4 (code bug): the recovery wrapper does not catch a panic of the
inner handler: its recover() call is not deferred, so on the panicking
sample handler the composed handler itself panics instead of answering
500; the panic escapes the request handler. -/
theorem recovery_panic_escapes :
    recovery cPanicHandler "write" cReq = HResult.panicked "boom" := rfl

/-- C5 (confirmed): with authentication required, a zero user count
admits the request and runs the inner handler with a nil user without
reading credentials, while with a positive user count a request whose
credentials cannot be parsed is answered 401 and the inner handler never
runs (the response does not depend on the inner handler). -/
theorem authenticate_bootstrap_and_reject (inner : Option User → Handler)
    (userCount : Nat) (authUser : String → String → Except String User) (r : Request) :
    (userCount = 0 → authenticate inner userCount authUser true r = inner none r) ∧
    (∀ e, 0 < userCount → parseCredentials r = Except.error e →
      authenticate inner userCount authUser true r = HResult.ok (httpError e 401)) := by
  constructor
  · intro h0
    subst h0
    simp [authenticate]
  · intro e hpos hc
    simp [authenticate, hc, hpos]

/-- C5 witness: a credential-free request is admitted anonymously at user
count zero and rejected 401 at user count three. -/
theorem authenticate_bootstrap_and_reject_witness :
    authenticate cInner 0 cAuthUser true cReq = cInner none cReq ∧
    authenticate cInner 3 cAuthUser true cReq =
      HResult.ok (httpError "unable to parse Basic Auth credentials" 401) :=
  ⟨(authenticate_bootstrap_and_reject cInner 0 cAuthUser cReq).1 rfl,
   (authenticate_bootstrap_and_reject cInner 3 cAuthUser cReq).2
     "unable to parse Basic Auth credentials" (by decide) rfl⟩

/-- C6 (confirmed): a decoded batch with an empty database name is
answered 500 with the error "database is required", and a batch naming a
database that does not exist is answered 404 with a database-not-found
error; in both cases WriteSeries is not called. -/
theorem serveWrite_db_required_not_found (databaseExists : String → Bool)
    (requireAuthentication : Bool) (authorizeWrite : String → Bool)
    (writeSeries : String → String → List Point → Except String Nat) (bp : BatchPoints) :
    (bp.database = "" →
      serveWrite (Except.ok bp) databaseExists requireAuthentication authorizeWrite writeSeries =
        { status := 500, body := some "database is required", writeCalled := false }) ∧
    (bp.database ≠ "" → databaseExists bp.database = false →
      serveWrite (Except.ok bp) databaseExists requireAuthentication authorizeWrite writeSeries =
        { status := 404, body := some ("database not found: " ++ goQuote bp.database),
          writeCalled := false }) := by
  constructor
  · intro h
    simp [serveWrite, h]
  · intro h1 h2
    simp [serveWrite, h1, h2]

/-- C6 witness: concrete batches exercising both error paths. -/
theorem serveWrite_db_required_not_found_witness :
    serveWrite (Except.ok cbpNoDb) cFalseExists false cTrueAuth cWS =
      { status := 500, body := some "database is required", writeCalled := false } ∧
    serveWrite (Except.ok cbpDb) cFalseExists false cTrueAuth cWS =
      { status := 404, body := some ("database not found: " ++ goQuote "nope"),
        writeCalled := false } :=
  ⟨(serveWrite_db_required_not_found cFalseExists false cTrueAuth cWS cbpNoDb).1 rfl,
   (serveWrite_db_required_not_found cFalseExists false cTrueAuth cWS cbpDb).2
     (by decide) rfl⟩

/-- C8 (confirmed): creating a data node answers 201 with a body carrying
the assigned node id and URL on success, 409 on a duplicate node, 400 on
a URL parse failure, and 502 when creating the broker replica fails. -/
theorem serveCreateDataNode_statuses (decoded : Except String DataNodeJSON)
    (parseURL : String → Except String String)
    (createDataNode : String → Option CreateNodeErr)
    (dataNodeByURL : String → DataNodeJSON) (createReplica : Nat → Option String) :
    (∀ n u, decoded = Except.ok n → parseURL n.url = Except.ok u →
      createDataNode u = none → createReplica (dataNodeByURL u).id = none →
      serveCreateDataNode decoded parseURL createDataNode dataNodeByURL createReplica =
        { status := 201, body := dataNodeBody (dataNodeByURL u).id (dataNodeByURL u).url }) ∧
    (∀ n u, decoded = Except.ok n → parseURL n.url = Except.ok u →
      createDataNode u = some CreateNodeErr.nodeExists →
      serveCreateDataNode decoded parseURL createDataNode dataNodeByURL createReplica =
        { status := 409, body := "data node exists" }) ∧
    (∀ n e, decoded = Except.ok n → parseURL n.url = Except.error e →
      serveCreateDataNode decoded parseURL createDataNode dataNodeByURL createReplica =
        { status := 400, body := "invalid data node url" }) ∧
    (∀ n u e, decoded = Except.ok n → parseURL n.url = Except.ok u →
      createDataNode u = none → createReplica (dataNodeByURL u).id = some e →
      serveCreateDataNode decoded parseURL createDataNode dataNodeByURL createReplica =
        { status := 502, body := e }) := by
  refine ⟨?_, ?_, ?_, ?_⟩
  · intro n u hdec hurl hcreate hrep
    simp [serveCreateDataNode, hdec, hurl, hcreate, hrep]
  · intro n u hdec hurl hcreate
    simp [serveCreateDataNode, hdec, hurl, hcreate]
  · intro n e hdec hurl
    simp [serveCreateDataNode, hdec, hurl]
  · intro n u e hdec hurl hcreate hrep
    simp [serveCreateDataNode, hdec, hurl, hcreate, hrep]

/-- C8 witness: the four response shapes at concrete inputs. -/
theorem serveCreateDataNode_statuses_witness :
    serveCreateDataNode (Except.ok c8Node) c8ParseOk c8CreateOk c8ByURL c8ReplicaOk =
      { status := 201, body := dataNodeBody 1 "http://a:8086" } ∧
    serveCreateDataNode (Except.ok c8Node) c8ParseOk c8CreateDup c8ByURL c8ReplicaOk =
      { status := 409, body := "data node exists" } ∧
    serveCreateDataNode (Except.ok c8Node) c8ParseErr c8CreateOk c8ByURL c8ReplicaOk =
      { status := 400, body := "invalid data node url" } ∧
    serveCreateDataNode (Except.ok c8Node) c8ParseOk c8CreateOk c8ByURL c8ReplicaErr =
      { status := 502, body := "replica failed" } :=
  ⟨(serveCreateDataNode_statuses (Except.ok c8Node) c8ParseOk c8CreateOk c8ByURL
      c8ReplicaOk).1 c8Node "http://a:8086" rfl rfl rfl rfl,
   (serveCreateDataNode_statuses (Except.ok c8Node) c8ParseOk c8CreateDup c8ByURL
      c8ReplicaOk).2.1 c8Node "http://a:8086" rfl rfl rfl,
   (serveCreateDataNode_statuses (Except.ok c8Node) c8ParseErr c8CreateOk c8ByURL
      c8ReplicaOk).2.2.1 c8Node "parse" rfl rfl,
   (serveCreateDataNode_statuses (Except.ok c8Node) c8ParseOk c8CreateOk c8ByURL
      c8ReplicaErr).2.2.2 c8Node "http://a:8086" "replica failed" rfl rfl rfl rfl⟩

/-- C9 (confirmed): the route handler is the nesting with recovery
outermost, then logging, request-id, CORS, version header, gzip, and
authentication innermost around the handler; and for an OPTIONS request
the CORS middleware answers by itself, its result independent of the
wrapped inner handler, with the implicit empty 200. -/
theorem middleware_order_and_cors_options (hf : Option User → Handler) (userCount : Nat)
    (authUser : String → String → Except String User) (requireAuthentication : Bool)
    (version uid name : String) :
    buildRouteHandler hf userCount authUser requireAuthentication version uid name =
      recovery (logging (requestID (cors (versionHeader
        (gzipFilter (authenticate hf userCount authUser requireAuthentication))
        version)) uid) name) name ∧
    (∀ inner inner2 r, r.method = "OPTIONS" → cors inner r = cors inner2 r) ∧
    (∀ inner r, r.method = "OPTIONS" → cors inner r = HResult.ok
      { status := 200, headers := if r.origin != "" then corsHeaders r.origin else [],
        body := "", logs := [] }) := by
  refine ⟨rfl, ?_, ?_⟩
  · intro inner inner2 r h
    simp [cors, h]
  · intro inner r h
    simp [cors, h]

/-- C9 witness: on a concrete OPTIONS request the CORS result is the same
for two distinguishable inner handlers and is the empty 200. -/
theorem middleware_order_and_cors_options_witness :
    cors cHandlerA cOptReq = cors cHandlerB cOptReq ∧
    cors cHandlerA cOptReq =
      HResult.ok { status := 200, headers := [], body := "", logs := [] } :=
  ⟨(middleware_order_and_cors_options cInner 0 cAuthUser true "v" "uid" "write").2.1
      cHandlerA cHandlerB cOptReq rfl,
   (middleware_order_and_cors_options cInner 0 cAuthUser true "v" "uid" "write").2.2
      cHandlerA cOptReq rfl⟩

/-- C10 (confirmed): a write body whose decode fails with EOF is answered
200 with no error body and no write, while any other decode failure is
answered 500 with the decode error in the body and no write. -/
theorem serveWrite_eof_ok (databaseExists : String → Bool)
    (requireAuthentication : Bool) (authorizeWrite : String → Bool)
    (writeSeries : String → String → List Point → Except String Nat) (e : String) :
    (e = "EOF" →
      serveWrite (Except.error e) databaseExists requireAuthentication authorizeWrite writeSeries =
        { status := 200, body := none, writeCalled := false }) ∧
    (e ≠ "EOF" →
      serveWrite (Except.error e) databaseExists requireAuthentication authorizeWrite writeSeries =
        { status := 500, body := some e, writeCalled := false }) := by
  constructor
  · intro h
    simp [serveWrite, h]
  · intro h
    simp [serveWrite, h]

/-- C10 witness: an EOF decode failure yields the bare 200 and a non-EOF
decode failure the 500 with the error. -/
theorem serveWrite_eof_ok_witness :
    serveWrite (Except.error "EOF") cFalseExists false cTrueAuth cWS =
      { status := 200, body := none, writeCalled := false } ∧
    serveWrite (Except.error "bad json") cFalseExists false cTrueAuth cWS =
      { status := 500, body := some "bad json", writeCalled := false } :=
  ⟨(serveWrite_eof_ok cFalseExists false cTrueAuth cWS "EOF").1 rfl,
   (serveWrite_eof_ok cFalseExists false cTrueAuth cWS "bad json").2 (by decide)⟩

end Httpd
